import Mathlib

/-!
Verification of the todo list/detail front-end components
(src/components/todo-list.component.tsx and src/components/todo-detail.component.tsx).

The two React components are shallowly embedded as pure state-transition
functions.  React `useState` variables become fields of a state structure;
the body of each async fetch function becomes a pure function from the
response outcome to the next state (the `await` points are atomic here, so a
single settled request is one application of that function); the component
lifecycle (mount effect, prop changes, user interaction, response arrival)
becomes a step function over an event list, folded from the initial state.
The JSX return value of each component becomes a render function from state
to a rendered variant.
-/

/-- Todo record, from src/types/todo-type as consumed by both components:
id, userId, title, completed. -/
structure Todo where
  id : Nat
  userId : Nat
  title : String
  completed : Bool
deriving Repr, DecidableEq

/-- Filter selection of the list view: the union type
All | Open | Completed of the filter state. -/
inductive TodoFilter where
  | All
  | Open
  | Completed
deriving Repr, DecidableEq

/-- Result of response.json(): either the parsed body or a rejection with a
message (malformed body). -/
def JsonResult (α : Type) := Except String α

/-- Response object returned by fetch when the request completes:
ok flag, status code, and the json() body. -/
structure HttpResponse (α : Type) where
  ok : Bool
  status : Nat
  json : Except String α
deriving Repr

/-- Outcome of one fetch call: either the promise rejects (network failure,
caught by the catch block with its message) or a response arrives. -/
inductive FetchOutcome (α : Type) where
  | networkError (message : String)
  | response (r : HttpResponse α)
deriving Repr

/-- View-local state of the TodoList component: the five useState variables
todos, filteredTodos, loading, error, filter. -/
structure ListState where
  todos : List Todo
  filteredTodos : List Todo
  loading : Bool
  error : Option String
  filter : TodoFilter
deriving Repr, DecidableEq

/-- Initial TodoList state: useState([]), useState([]), useState(true),
useState(null), useState(All). -/
def initListState : ListState :=
  { todos := [], filteredTodos := [], loading := true, error := none,
    filter := TodoFilter.All }

/-- Body of fetchTodos from todo-list.component.tsx, as a pure function of
the fetch outcome: setLoading(true); try: fetch; if not response.ok then
setError("HTTP error! Status: " ++ status) (no early return); data := await
response.json(); setTodos(data); setFilteredTodos(data); catch: setError of
the caught message; finally: setLoading(false). -/
def fetchTodos (s : ListState) (o : FetchOutcome (List Todo)) : ListState :=
  let s1 : ListState := { s with loading := true }
  let s2 : ListState :=
    match o with
    | FetchOutcome.networkError msg => { s1 with error := some msg }
    | FetchOutcome.response r =>
      let sa : ListState :=
        if r.ok then s1
        else { s1 with error := some ("HTTP error! Status: " ++ toString r.status) }
      match r.json with
      | Except.error msg => { sa with error := some msg }
      | Except.ok data => { sa with todos := data, filteredTodos := data }
  { s2 with loading := false }

/-- Predicate each filter mode selects, as the spec states it:
All selects everything, Open selects items with completed = false,
Completed selects items with completed = true. -/
def filterPred : TodoFilter → Todo → Bool
  | TodoFilter.All => fun _ => true
  | TodoFilter.Open => fun t => !t.completed
  | TodoFilter.Completed => fun t => t.completed

/-- Subset computation of handleFilter in todo-list.component.tsx:
All sets filteredTodos to todos itself, Open to todos.filter(t => !t.completed),
Completed to todos.filter(t => t.completed). -/
def handleFilterTodos (todos : List Todo) : TodoFilter → List Todo
  | TodoFilter.All => todos
  | TodoFilter.Open => todos.filter (fun t => !t.completed)
  | TodoFilter.Completed => todos.filter (fun t => t.completed)

/-- handleFilter from todo-list.component.tsx: setFilter(newFilter) and
setFilteredTodos according to the branch taken. -/
def handleFilter (s : ListState) (f : TodoFilter) : ListState :=
  { s with filter := f, filteredTodos := handleFilterTodos s.todos f }

/-- Rendered output of the TodoList component: the early returns for
loading and error, else the list built from filteredTodos. -/
inductive ListRender where
  | loadingIndicator
  | errorIndicator
  | itemList (items : List Todo)
deriving Repr, DecidableEq

/-- Render function of TodoList: if loading return "Loading todos";
if error return "Error loading todos"; else the list of filteredTodos
(with a "No todos found" paragraph inside when empty). -/
def renderList (s : ListState) : ListRender :=
  if s.loading then ListRender.loadingIndicator
  else if s.error.isSome then ListRender.errorIndicator
  else ListRender.itemList s.filteredTodos

/-- Text the TodoList render produces, following the JSX: the loading div
text, the error div text, or the list (the empty list shows the
"No todos found" paragraph). -/
def listRenderText : ListRender → String
  | ListRender.loadingIndicator => "Loading todos"
  | ListRender.errorIndicator => "Error loading todos"
  | ListRender.itemList items =>
    if items.isEmpty then "No todos found"
    else String.intercalate " " (items.map (fun t => t.title))

/-- Lifecycle events of the TodoList component: the single mount fetch
(the useEffect with empty dependency array) settling with an outcome, and
filter button clicks handled by handleFilter. -/
inductive ListEvent where
  | mountFetch (o : FetchOutcome (List Todo))
  | selectFilter (f : TodoFilter)
deriving Repr

/-- TodoList component together with the number of network requests it has
issued. -/
structure ListWorld where
  state : ListState
  requestCount : Nat
deriving Repr, DecidableEq

/-- Freshly mounted TodoList world, before the mount effect runs. -/
def initListWorld : ListWorld := { state := initListState, requestCount := 0 }

/-- Step function of the TodoList lifecycle: the mount fetch issues one
request and applies fetchTodos; a filter click applies handleFilter and
issues no request. -/
def listStep (w : ListWorld) (e : ListEvent) : ListWorld :=
  match e with
  | ListEvent.mountFetch o =>
    { state := fetchTodos w.state o, requestCount := w.requestCount + 1 }
  | ListEvent.selectFilter f =>
    { state := handleFilter w.state f, requestCount := w.requestCount }

/-- Run of the TodoList component over a list of events. -/
def runList (events : List ListEvent) (w : ListWorld) : ListWorld :=
  events.foldl listStep w

theorem handleFilterTodos_eq_filter (todos : List Todo) (f : TodoFilter) :
    handleFilterTodos todos f = todos.filter (filterPred f) := by
  cases f with
  | All => simp [handleFilterTodos, filterPred]
  | Open => rfl
  | Completed => rfl

/-- Invariant relating filteredTodos to todos and the selected mode. -/
def listFilterInv (s : ListState) : Prop :=
  s.filteredTodos = s.todos.filter (filterPred s.filter)

theorem listFilterInv_selectFilter (w : ListWorld) (f : TodoFilter) :
    listFilterInv (listStep w (ListEvent.selectFilter f)).state := by
  simp [listFilterInv, listStep, handleFilter, handleFilterTodos_eq_filter]

theorem listFilterInv_mount (o : FetchOutcome (List Todo)) :
    listFilterInv (listStep initListWorld (ListEvent.mountFetch o)).state := by
  cases o with
  | networkError msg =>
    simp [listFilterInv, listStep, fetchTodos, initListWorld, initListState]
  | response r =>
    cases hr : r.json with
    | error msg =>
      by_cases hok : r.ok <;>
        simp [listFilterInv, listStep, fetchTodos, initListWorld, initListState, hok, hr]
    | ok data =>
      by_cases hok : r.ok <;>
        simp [listFilterInv, listStep, fetchTodos, initListWorld, initListState,
          hok, hr, filterPred]

theorem listFilterInv_run (fs : List TodoFilter) (w : ListWorld)
    (h : listFilterInv w.state) :
    listFilterInv (runList (fs.map ListEvent.selectFilter) w).state := by
  induction fs generalizing w with
  | nil => simpa [runList] using h
  | cons f rest ih =>
    have h2 := listFilterInv_selectFilter w f
    simpa [runList, List.foldl_cons] using ih (listStep w (ListEvent.selectFilter f)) h2

/-- C1: the derived filtered subset equals exactly the items of the full
collection matching the selected mode predicate (All is the identity),
handleFilter leaves the full collection untouched, and along every run of
the component (mount fetch followed by any filter selections) filteredTodos
stays the pure function of (todos, filter). -/
theorem filtered_subset_is_pure_function :
    (∀ (todos : List Todo) (f : TodoFilter),
       handleFilterTodos todos f = todos.filter (filterPred f)) ∧
    (∀ todos : List Todo, handleFilterTodos todos TodoFilter.All = todos) ∧
    (∀ (s : ListState) (f : TodoFilter),
       (handleFilter s f).filteredTodos = handleFilterTodos s.todos f ∧
       (handleFilter s f).todos = s.todos ∧ (handleFilter s f).filter = f) ∧
    (∀ (o : FetchOutcome (List Todo)) (fs : List TodoFilter),
       (runList (ListEvent.mountFetch o :: fs.map ListEvent.selectFilter)
           initListWorld).state.filteredTodos =
         (runList (ListEvent.mountFetch o :: fs.map ListEvent.selectFilter)
             initListWorld).state.todos.filter
           (filterPred (runList (ListEvent.mountFetch o :: fs.map ListEvent.selectFilter)
               initListWorld).state.filter)) := by
  refine ⟨handleFilterTodos_eq_filter, fun todos => rfl,
    fun s f => ⟨rfl, rfl, rfl⟩, fun o fs => ?_⟩
  have hrun : runList (ListEvent.mountFetch o :: fs.map ListEvent.selectFilter)
      initListWorld =
      runList (fs.map ListEvent.selectFilter)
        (listStep initListWorld (ListEvent.mountFetch o)) := by
    simp [runList, List.foldl_cons]
  have := listFilterInv_run fs (listStep initListWorld (ListEvent.mountFetch o))
    (listFilterInv_mount o)
  rw [hrun]
  exact this

/-- View-local state of the TodoDetail component: the three useState
variables todo, loading, error. -/
structure DetailState where
  todo : Option Todo
  loading : Bool
  error : Option String
deriving Repr, DecidableEq

/-- Initial TodoDetail state: useState(null), useState(true), useState(null). -/
def initDetailState : DetailState :=
  { todo := none, loading := true, error := none }

/-- Settling part of fetchTodo in todo-detail.component.tsx, as a pure
function of the fetch outcome: if not response.ok then
setError("HTTP " ++ status) (no early return); data := await
response.json(); setTodo(data); catch: setError of the caught message;
finally: setLoading(false).  The body is typed Option Todo: a JSON null
body stores no record, a record body stores it, and a body that fails to
parse rejects with a message. -/
def fetchTodoSettle (s : DetailState) (o : FetchOutcome (Option Todo)) : DetailState :=
  let s2 : DetailState :=
    match o with
    | FetchOutcome.networkError msg => { s with error := some msg }
    | FetchOutcome.response r =>
      let sa : DetailState :=
        if r.ok then s
        else { s with error := some ("HTTP " ++ toString r.status) }
      match r.json with
      | Except.error msg => { sa with error := some msg }
      | Except.ok data => { sa with todo := data }
  { s2 with loading := false }

/-- Rendered output of the TodoDetail component: the early returns for
loading, error and missing record, else the record details. -/
inductive DetailRender where
  | loadingIndicator
  | errorIndicator
  | notFound
  | record (t : Todo)
deriving Repr, DecidableEq

/-- Render function of TodoDetail: if loading return "Loading todo...";
if error return "Error loading todo"; if todo is null return
"No todo found"; else the record details. -/
def renderDetail (s : DetailState) : DetailRender :=
  if s.loading then DetailRender.loadingIndicator
  else if s.error.isSome then DetailRender.errorIndicator
  else
    match s.todo with
    | none => DetailRender.notFound
    | some t => DetailRender.record t

/-- Text the TodoDetail render produces, following the JSX. -/
def detailRenderText : DetailRender → String
  | DetailRender.loadingIndicator => "Loading todo..."
  | DetailRender.errorIndicator => "Error loading todo"
  | DetailRender.notFound => "No todo found"
  | DetailRender.record t =>
    "Todo Details ID: " ++ toString t.id ++ " Title: " ++ t.title ++
      " User ID: " ++ toString t.userId ++
      (if t.completed then " Completed" else "")

/-- Lifecycle events of the TodoDetail component.  changeId covers the
mount and every change of the todoId prop: the useEffect with dependency
[todoId] runs fetchTodo, which sets loading to true and issues a request
for that id.  arrive i settles the i-th outstanding request (requests may
settle in any order; the component has no guard comparing the response to
the current id). -/
inductive DetailEvent where
  | changeId (id : Nat)
  | arrive (i : Nat)
deriving Repr, DecidableEq

/-- TodoDetail component together with its outstanding requests (in issue
order) and the full sequence of identifiers requested so far. -/
structure DetailWorld where
  state : DetailState
  pending : List Nat
  history : List Nat
deriving Repr, DecidableEq

/-- Freshly created TodoDetail world, before the mount effect runs. -/
def initDetailWorld : DetailWorld :=
  { state := initDetailState, pending := [], history := [] }

/-- Step function of the TodoDetail lifecycle, parameterized by the remote
service (the outcome each requested identifier eventually produces).
changeId runs the effect body up to the await: setLoading(true) and a new
outstanding request.  arrive i applies the rest of fetchTodo to the state
with the outcome for the i-th outstanding request and removes it;
the state update is the same whichever request settles, because the code
never compares the response against the current identifier. -/
def detailStep (service : Nat → FetchOutcome (Option Todo))
    (w : DetailWorld) (e : DetailEvent) : DetailWorld :=
  match e with
  | DetailEvent.changeId id =>
    { state := { w.state with loading := true },
      pending := w.pending ++ [id],
      history := w.history ++ [id] }
  | DetailEvent.arrive i =>
    match w.pending[i]? with
    | none => w
    | some id =>
      { state := fetchTodoSettle w.state (service id),
        pending := w.pending.eraseIdx i,
        history := w.history }

/-- Run of the TodoDetail component over a list of events. -/
def runDetail (service : Nat → FetchOutcome (Option Todo))
    (events : List DetailEvent) (w : DetailWorld) : DetailWorld :=
  events.foldl (detailStep service) w

/-- Last identifier of a request sequence beginning with id. -/
def lastId (id : Nat) (ids : List Nat) : Nat :=
  ids.foldl (fun _ i => i) id

/-- Service that answers every request for an identifier with HTTP 200 and
the record mkGoodTodo assigns to that identifier. -/
def goodService (mk : Nat → Todo) : Nat → FetchOutcome (Option Todo) :=
  fun id => FetchOutcome.response { ok := true, status := 200, json := Except.ok (some (mk id)) }

/-- Record the placeholder service stores for an identifier, used in
concrete runs. -/
def mkGoodTodo (id : Nat) : Todo :=
  { id := id, userId := 1, title := "todo " ++ toString id, completed := false }
/-- Service that answers every request with HTTP 404 and an empty body, the
way the placeholder service answers an absent identifier. -/
def notFoundService : Nat → FetchOutcome (Option Todo) :=
  fun _ => FetchOutcome.response { ok := false, status := 404, json := Except.ok none }

/-- Service that answers identifier 5 with HTTP 404 and every other
identifier with HTTP 200 and a null body: a success carrying no usable
record. -/
def mixedService : Nat → FetchOutcome (Option Todo) :=
  fun id =>
    if id = 5 then
      FetchOutcome.response { ok := false, status := 404, json := Except.ok none }
    else
      FetchOutcome.response { ok := true, status := 200, json := Except.ok none }

/-- Failure outcomes of the list fetch the spec names: a network error or a
response with a non-success status. -/
def isListFailure : FetchOutcome (List Todo) → Bool
  | FetchOutcome.networkError _ => true
  | FetchOutcome.response r => !r.ok

theorem fetchTodos_loading (s : ListState) (o : FetchOutcome (List Todo)) :
    (fetchTodos s o).loading = false := rfl

theorem fetchTodoSettle_loading (s : DetailState) (o : FetchOutcome (Option Todo)) :
    (fetchTodoSettle s o).loading = false := rfl

theorem renderList_of_error (s : ListState) (h1 : s.loading = false)
    (h2 : s.error.isSome = true) :
    renderList s = ListRender.errorIndicator := by
  simp [renderList, h1, h2]

theorem renderDetail_of_error (s : DetailState) (h1 : s.loading = false)
    (h2 : s.error.isSome = true) :
    renderDetail s = DetailRender.errorIndicator := by
  simp [renderDetail, h1, h2]

theorem fetchTodos_error_isSome (s : ListState) (o : FetchOutcome (List Todo))
    (h : isListFailure o = true) : (fetchTodos s o).error.isSome = true := by
  cases o with
  | networkError msg => rfl
  | response r =>
    have hok : r.ok = false := by simpa [isListFailure] using h
    cases hr : r.json with
    | error msg => simp [fetchTodos, hok, hr]
    | ok data => simp [fetchTodos, hok, hr]

theorem fetchTodoSettle_error_mono (s : DetailState) (o : FetchOutcome (Option Todo))
    (h : s.error.isSome = true) : (fetchTodoSettle s o).error.isSome = true := by
  cases o with
  | networkError msg => simp [fetchTodoSettle]
  | response r =>
    cases hr : r.json with
    | error msg => simp [fetchTodoSettle, hr]
    | ok data => by_cases hok : r.ok <;> simp [fetchTodoSettle, hr, hok, h]

theorem detailStep_error_mono (sv : Nat → FetchOutcome (Option Todo))
    (w : DetailWorld) (e : DetailEvent) (h : w.state.error.isSome = true) :
    (detailStep sv w e).state.error.isSome = true := by
  cases e with
  | changeId id => simpa [detailStep] using h
  | arrive i =>
    cases hp : w.pending[i]? with
    | none => simpa [detailStep, hp] using h
    | some id => simpa [detailStep, hp] using fetchTodoSettle_error_mono w.state (sv id) h

/-- C6: selecting a filter mode never issues a network request: along every
run consisting of the single mount fetch followed by any sequence of filter
selections the request count stays one, and a filter selection is exactly
the synchronous handleFilter recomputation with the request count
unchanged. -/
theorem filter_selection_issues_no_request :
    (∀ (o : FetchOutcome (List Todo)) (fs : List TodoFilter),
       (runList (ListEvent.mountFetch o :: fs.map ListEvent.selectFilter)
           initListWorld).requestCount = 1) ∧
    (∀ (w : ListWorld) (f : TodoFilter),
       listStep w (ListEvent.selectFilter f) =
         { state := handleFilter w.state f, requestCount := w.requestCount }) := by
  constructor
  · intro o fs
    have aux : ∀ (gs : List TodoFilter) (w : ListWorld),
        (runList (gs.map ListEvent.selectFilter) w).requestCount = w.requestCount := by
      intro gs
      induction gs with
      | nil => intro w; rfl
      | cons g rest ih =>
        intro w
        simpa [runList, List.foldl_cons] using ih (listStep w (ListEvent.selectFilter g))
    have hrun : runList (ListEvent.mountFetch o :: fs.map ListEvent.selectFilter)
        initListWorld =
        runList (fs.map ListEvent.selectFilter)
          (listStep initListWorld (ListEvent.mountFetch o)) := by
      simp [runList, List.foldl_cons]
    rw [hrun, aux]
    rfl
  · intro w f
    rfl

/-- C3: whenever the single list fetch settles as a failure (network error
or non-success status), an error message is stored and the view renders the
error indicator, not the item list; data and error are never rendered
together. -/
theorem list_failure_renders_error (s : ListState) (o : FetchOutcome (List Todo))
    (h : isListFailure o = true) :
    (fetchTodos s o).error.isSome = true ∧
    renderList (fetchTodos s o) = ListRender.errorIndicator ∧
    ∀ items : List Todo, renderList (fetchTodos s o) ≠ ListRender.itemList items := by
  have he := fetchTodos_error_isSome s o h
  have hr := renderList_of_error (fetchTodos s o) (fetchTodos_loading s o) he
  exact ⟨he, hr, fun items hcontra => by rw [hr] at hcontra; exact ListRender.noConfusion hcontra⟩

/-- Witness for C3 at a concrete rejected fetch. -/
theorem list_failure_renders_error_witness :
    isListFailure (FetchOutcome.networkError "Failed to fetch") = true ∧
    renderList (fetchTodos initListState (FetchOutcome.networkError "Failed to fetch")) =
      ListRender.errorIndicator :=
  ⟨rfl, (list_failure_renders_error initListState
      (FetchOutcome.networkError "Failed to fetch") rfl).2.1⟩

/-- C9: a response with a non-success status whose body still parses stores
the HTTP error message and at the same time overwrites both todos and
filteredTodos with the parsed body. -/
theorem error_status_still_overwrites_todos (s : ListState)
    (r : HttpResponse (List Todo)) (data : List Todo)
    (hok : r.ok = false) (hjson : r.json = Except.ok data) :
    (fetchTodos s (FetchOutcome.response r)).error =
      some ("HTTP error! Status: " ++ toString r.status) ∧
    (fetchTodos s (FetchOutcome.response r)).todos = data ∧
    (fetchTodos s (FetchOutcome.response r)).filteredTodos = data := by
  refine ⟨?_, ?_, ?_⟩ <;> simp [fetchTodos, hok, hjson]

/-- Witness for C9: a 500 response with a parseable empty-array body
replaces a previously stored non-empty collection. -/
theorem error_status_still_overwrites_todos_witness :
    ({ ok := false, status := 500,
       json := Except.ok [] } : HttpResponse (List Todo)).ok = false ∧
    (fetchTodos
        { todos := [mkGoodTodo 1], filteredTodos := [mkGoodTodo 1],
          loading := false, error := none, filter := TodoFilter.All }
        (FetchOutcome.response
          { ok := false, status := 500, json := Except.ok [] })).todos = [] :=
  ⟨rfl, (error_status_still_overwrites_todos
      { todos := [mkGoodTodo 1], filteredTodos := [mkGoodTodo 1],
        loading := false, error := none, filter := TodoFilter.All }
      { ok := false, status := 500, json := Except.ok [] } [] rfl rfl).2.1⟩
theorem fetchTodoSettle_error_isSome_of_notOk (s : DetailState)
    (r : HttpResponse (Option Todo)) (hok : r.ok = false) :
    ((fetchTodoSettle s (FetchOutcome.response r)).error).isSome = true := by
  cases hr : r.json with
  | error msg => simp [fetchTodoSettle, hok, hr]
  | ok data => simp [fetchTodoSettle, hok, hr]

theorem renderList_not_loading (s : ListState) (h : s.loading = false) :
    renderList s ≠ ListRender.loadingIndicator := by
  by_cases he : s.error.isSome <;> simp [renderList, h, he]

theorem renderDetail_not_loading (s : DetailState) (h : s.loading = false) :
    renderDetail s ≠ DetailRender.loadingIndicator := by
  by_cases he : s.error.isSome
  · simp [renderDetail, h, he]
  · cases ht : s.todo <;> simp [renderDetail, h, he, ht]

theorem renderDetail_settled (s : DetailState) (h : s.loading = false) :
    renderDetail s = DetailRender.errorIndicator ∨
    renderDetail s = DetailRender.notFound ∨
    ∃ t, renderDetail s = DetailRender.record t := by
  by_cases he : s.error.isSome
  · exact Or.inl (renderDetail_of_error s h he)
  · cases ht : s.todo with
    | none => exact Or.inr (Or.inl (by simp [renderDetail, h, he, ht]))
    | some t => exact Or.inr (Or.inr ⟨t, by simp [renderDetail, h, he, ht]⟩)

/-- C2 counterexample: identifiers 1 then 2 are requested, the response for
2 arrives first and the response for 1 arrives last; once everything has
settled the view renders the record for identifier 1, although the last
identifier in the sequence is 2.  The code has no guard comparing a
response to the current identifier, so the last arrival wins, not the last
request. -/
theorem stale_response_renders_old_identifier :
    (runDetail (goodService mkGoodTodo)
        [DetailEvent.changeId 1, DetailEvent.changeId 2,
         DetailEvent.arrive 1, DetailEvent.arrive 0] initDetailWorld).history = [1, 2] ∧
    (runDetail (goodService mkGoodTodo)
        [DetailEvent.changeId 1, DetailEvent.changeId 2,
         DetailEvent.arrive 1, DetailEvent.arrive 0] initDetailWorld).pending = [] ∧
    renderDetail (runDetail (goodService mkGoodTodo)
        [DetailEvent.changeId 1, DetailEvent.changeId 2,
         DetailEvent.arrive 1, DetailEvent.arrive 0] initDetailWorld).state =
      DetailRender.record (mkGoodTodo 1) ∧
    mkGoodTodo 1 ≠ mkGoodTodo 2 :=
  ⟨rfl, rfl, rfl, by decide⟩

/-- Events of a sequence of identifier changes in which each request
settles before the next change: changeId immediately followed by the
arrival of the single outstanding response. -/
def seqEvents : List Nat → List DetailEvent
  | [] => []
  | i :: rest => DetailEvent.changeId i :: DetailEvent.arrive 0 :: seqEvents rest

/-- C2 amended: when the responses arrive in the order the requests were
issued — here, each request settles before the next identifier change —
the record ultimately rendered is the service record of the last
identifier in the sequence. -/
theorem last_identifier_wins_when_in_order (mk : Nat → Todo) :
    ∀ (ids : List Nat) (id : Nat) (w : DetailWorld),
      w.pending = [] → w.state.error = none →
      (runDetail (goodService mk) (seqEvents (id :: ids)) w).state =
        { todo := some (mk (lastId id ids)), loading := false, error := none } ∧
      (runDetail (goodService mk) (seqEvents (id :: ids)) w).pending = [] ∧
      renderDetail (runDetail (goodService mk) (seqEvents (id :: ids)) w).state =
        DetailRender.record (mk (lastId id ids)) := by
  intro ids
  induction ids with
  | nil =>
    intro id w hp he
    have hstate : (runDetail (goodService mk) (seqEvents [id]) w).state =
        { todo := some (mk id), loading := false, error := none } := by
      simp [seqEvents, runDetail, detailStep, hp, fetchTodoSettle, goodService, he]
    have hpend : (runDetail (goodService mk) (seqEvents [id]) w).pending = [] := by
      simp [seqEvents, runDetail, detailStep, hp]
    refine ⟨hstate, hpend, ?_⟩
    rw [hstate]
    rfl
  | cons i2 rest ih =>
    intro id w hp he
    have hsplit : runDetail (goodService mk) (seqEvents (id :: i2 :: rest)) w =
        runDetail (goodService mk) (seqEvents (i2 :: rest))
          (detailStep (goodService mk)
            (detailStep (goodService mk) w (DetailEvent.changeId id))
            (DetailEvent.arrive 0)) := by
      simp [seqEvents, runDetail, List.foldl_cons]
    have hp2 : (detailStep (goodService mk)
        (detailStep (goodService mk) w (DetailEvent.changeId id))
        (DetailEvent.arrive 0)).pending = [] := by
      simp [detailStep, hp]
    have he2 : (detailStep (goodService mk)
        (detailStep (goodService mk) w (DetailEvent.changeId id))
        (DetailEvent.arrive 0)).state.error = none := by
      simp [detailStep, hp, fetchTodoSettle, goodService, he]
    have hl : lastId id (i2 :: rest) = lastId i2 rest := rfl
    rw [hsplit, hl]
    exact ih i2 _ hp2 he2

/-- Witness for the amended C2: the in-order sequence 1, 2, 3 renders the
record for identifier 3. -/
theorem last_identifier_wins_when_in_order_witness :
    initDetailWorld.pending = [] ∧ initDetailWorld.state.error = none ∧
    renderDetail (runDetail (goodService mkGoodTodo) (seqEvents [1, 2, 3])
        initDetailWorld).state = DetailRender.record (mkGoodTodo 3) :=
  ⟨rfl, rfl,
    (last_identifier_wins_when_in_order mkGoodTodo [2, 3] 1 initDetailWorld rfl rfl).2.2⟩
/-- C4 counterexample: identifiers 3 then 4 are requested; when the
response for 3 arrives, its finally-block clears the loading flag although
the request for the current identifier 4 is still outstanding, so the
loading indicator is no longer shown while the relevant request is
pending. -/
theorem loading_cleared_while_request_outstanding :
    (runDetail (goodService mkGoodTodo)
        [DetailEvent.changeId 3, DetailEvent.changeId 4, DetailEvent.arrive 0]
        initDetailWorld).pending = [4] ∧
    (runDetail (goodService mkGoodTodo)
        [DetailEvent.changeId 3, DetailEvent.changeId 4, DetailEvent.arrive 0]
        initDetailWorld).state.loading = false ∧
    renderDetail (runDetail (goodService mkGoodTodo)
        [DetailEvent.changeId 3, DetailEvent.changeId 4, DetailEvent.arrive 0]
        initDetailWorld).state ≠ DetailRender.loadingIndicator :=
  ⟨rfl, rfl, by decide⟩

/-- C4 amended: in the list view the loading indicator is shown while the
single mount request is outstanding and is gone once it settles; in the
detail view every identifier change turns the loading indicator on with a
request outstanding, and when exactly one request is outstanding its
settling turns the indicator off; once a view is not loading it renders
exactly one of error, not-found or data.  The qualification "exactly while
the currently relevant request is outstanding" holds only when requests do
not overlap: with overlapping requests an earlier response clears the
indicator early. -/
theorem loading_shown_while_outstanding_amended :
    renderList initListState = ListRender.loadingIndicator ∧
    (∀ (s : ListState) (o : FetchOutcome (List Todo)),
       (fetchTodos s o).loading = false ∧
       renderList (fetchTodos s o) ≠ ListRender.loadingIndicator) ∧
    (∀ (sv : Nat → FetchOutcome (Option Todo)) (w : DetailWorld) (id : Nat),
       (detailStep sv w (DetailEvent.changeId id)).state.loading = true ∧
       renderDetail (detailStep sv w (DetailEvent.changeId id)).state =
         DetailRender.loadingIndicator ∧
       (detailStep sv w (DetailEvent.changeId id)).pending ≠ []) ∧
    (∀ (sv : Nat → FetchOutcome (Option Todo)) (w : DetailWorld),
       w.pending.length = 1 →
       (detailStep sv w (DetailEvent.arrive 0)).pending = [] ∧
       (detailStep sv w (DetailEvent.arrive 0)).state.loading = false ∧
       renderDetail (detailStep sv w (DetailEvent.arrive 0)).state ≠
         DetailRender.loadingIndicator) ∧
    (∀ s : DetailState, s.loading = false →
       renderDetail s = DetailRender.errorIndicator ∨
       renderDetail s = DetailRender.notFound ∨
       ∃ t, renderDetail s = DetailRender.record t) := by
  refine ⟨rfl, ?_, ?_, ?_, renderDetail_settled⟩
  · intro s o
    exact ⟨fetchTodos_loading s o,
      renderList_not_loading (fetchTodos s o) (fetchTodos_loading s o)⟩
  · intro sv w id
    refine ⟨rfl, ?_, by simp [detailStep]⟩
    simp [detailStep, renderDetail]
  · intro sv w h
    obtain ⟨id, hid⟩ : ∃ id, w.pending = [id] := by
      cases wp : w.pending with
      | nil => rw [wp] at h; simp at h
      | cons a l =>
        cases l with
        | nil => exact ⟨a, rfl⟩
        | cons b l2 => rw [wp] at h; simp at h
    have hpend : (detailStep sv w (DetailEvent.arrive 0)).pending = [] := by
      simp [detailStep, hid]
    have hload : (detailStep sv w (DetailEvent.arrive 0)).state.loading = false := by
      simp [detailStep, hid, fetchTodoSettle_loading]
    exact ⟨hpend, hload, renderDetail_not_loading _ hload⟩

/-- Witness for the amended C4 at a world with exactly one outstanding
request and at a concrete settled state. -/
theorem loading_shown_while_outstanding_amended_witness :
    ({ state := initDetailState, pending := [7], history := [7] } :
        DetailWorld).pending.length = 1 ∧
    (detailStep (goodService mkGoodTodo)
        { state := initDetailState, pending := [7], history := [7] }
        (DetailEvent.arrive 0)).pending = [] ∧
    ({ todo := none, loading := false, error := none } : DetailState).loading = false ∧
    (renderDetail { todo := none, loading := false, error := none } =
       DetailRender.errorIndicator ∨
     renderDetail { todo := none, loading := false, error := none } =
       DetailRender.notFound ∨
     ∃ t, renderDetail { todo := none, loading := false, error := none } =
       DetailRender.record t) :=
  ⟨rfl,
   (loading_shown_while_outstanding_amended.2.2.2.1 (goodService mkGoodTodo)
      { state := initDetailState, pending := [7], history := [7] } rfl).1,
   rfl,
   loading_shown_while_outstanding_amended.2.2.2.2
      { todo := none, loading := false, error := none } rfl⟩

/-- C5 counterexample: identifier 5 is answered with HTTP 404, which stores
an error; the identifier then changes to 6 and that fetch succeeds with a
null body, a success yielding no usable record — yet once settled the view
renders the error indicator, not the not-found indication, because the
render checks error before the missing record and no fetch ever resets the
error. -/
theorem success_without_record_renders_error_not_notfound :
    (runDetail mixedService
        [DetailEvent.changeId 5, DetailEvent.arrive 0,
         DetailEvent.changeId 6, DetailEvent.arrive 0] initDetailWorld).state =
      { todo := none, loading := false, error := some "HTTP 404" } ∧
    mixedService 6 =
      FetchOutcome.response { ok := true, status := 200, json := Except.ok none } ∧
    renderDetail (runDetail mixedService
        [DetailEvent.changeId 5, DetailEvent.arrive 0,
         DetailEvent.changeId 6, DetailEvent.arrive 0] initDetailWorld).state =
      DetailRender.errorIndicator ∧
    renderDetail (runDetail mixedService
        [DetailEvent.changeId 5, DetailEvent.arrive 0,
         DetailEvent.changeId 6, DetailEvent.arrive 0] initDetailWorld).state ≠
      DetailRender.notFound :=
  ⟨rfl, rfl, rfl, by decide⟩

/-- C5 amended: a single-record fetch that settles with a non-success
status (for example id 5 answered with HTTP 404) renders the error
indicator and never a record; a successful fetch whose body holds no
usable record renders the not-found indication when no earlier fetch has
stored an error, and the error indicator when one has (the error is
checked before the missing record and is never reset). -/
theorem detail_http_error_and_notfound (s : DetailState)
    (r : HttpResponse (Option Todo)) :
    (r.ok = false →
       renderDetail (fetchTodoSettle s (FetchOutcome.response r)) =
         DetailRender.errorIndicator ∧
       ∀ t : Todo, renderDetail (fetchTodoSettle s (FetchOutcome.response r)) ≠
         DetailRender.record t) ∧
    (r.ok = true → r.json = Except.ok none → s.error = none →
       renderDetail (fetchTodoSettle s (FetchOutcome.response r)) =
         DetailRender.notFound) ∧
    (r.ok = true → r.json = Except.ok none → s.error.isSome = true →
       renderDetail (fetchTodoSettle s (FetchOutcome.response r)) =
         DetailRender.errorIndicator) := by
  refine ⟨?_, ?_, ?_⟩
  · intro hok
    have he := fetchTodoSettle_error_isSome_of_notOk s r hok
    have hr := renderDetail_of_error _ (fetchTodoSettle_loading s (FetchOutcome.response r)) he
    exact ⟨hr, fun t hcontra => by rw [hr] at hcontra; exact DetailRender.noConfusion hcontra⟩
  · intro hok hjson herr
    simp [fetchTodoSettle, renderDetail, hok, hjson, herr]
  · intro hok hjson herr
    exact renderDetail_of_error _ (fetchTodoSettle_loading s (FetchOutcome.response r))
      (fetchTodoSettle_error_mono s (FetchOutcome.response r) herr)

/-- Witness for the amended C5: a 404 for id 5 renders the error indicator,
a 200 with a null body renders the not-found indication on a fresh view and
the error indicator on a view with a stored error. -/
theorem detail_http_error_and_notfound_witness :
    ({ ok := false, status := 404, json := Except.ok none } :
        HttpResponse (Option Todo)).ok = false ∧
    renderDetail (fetchTodoSettle initDetailState
        (FetchOutcome.response { ok := false, status := 404, json := Except.ok none })) =
      DetailRender.errorIndicator ∧
    renderDetail (fetchTodoSettle initDetailState
        (FetchOutcome.response { ok := true, status := 200, json := Except.ok none })) =
      DetailRender.notFound ∧
    renderDetail (fetchTodoSettle
        { todo := none, loading := false, error := some "HTTP 404" }
        (FetchOutcome.response { ok := true, status := 200, json := Except.ok none })) =
      DetailRender.errorIndicator :=
  ⟨rfl,
   ((detail_http_error_and_notfound initDetailState
      { ok := false, status := 404, json := Except.ok none }).1 rfl).1,
   (detail_http_error_and_notfound initDetailState
      { ok := true, status := 200, json := Except.ok none }).2.1 rfl rfl rfl,
   (detail_http_error_and_notfound
      { todo := none, loading := false, error := some "HTTP 404" }
      { ok := true, status := 200, json := Except.ok none }).2.2 rfl rfl rfl⟩
/-- C7 counterexample: the state is held in independent useState variables,
not in a single tagged variant, so the combination the claim calls
unrepresentable is reached: after a 404 settles (error stored) and the
identifier changes again, loading is true and error is set at the same
time. -/
theorem loading_and_error_simultaneously_true :
    (runDetail notFoundService
        [DetailEvent.changeId 5, DetailEvent.arrive 0, DetailEvent.changeId 6]
        initDetailWorld).state.loading = true ∧
    (runDetail notFoundService
        [DetailEvent.changeId 5, DetailEvent.arrive 0, DetailEvent.changeId 6]
        initDetailWorld).state.error = some "HTTP 404" :=
  ⟨rfl, rfl⟩

/-- C7 amended: both views keep loading, error and data in independent
state variables; the combination of loading and error set at once is
representable and actually reached, and only the branch ordering of the
render functions (loading checked before error, error before data) keeps a
single indicator on screen. -/
theorem independent_flags_with_render_precedence :
    (∀ s : DetailState, s.loading = true →
       renderDetail s = DetailRender.loadingIndicator) ∧
    (∀ s : DetailState, s.loading = false → s.error.isSome = true →
       renderDetail s = DetailRender.errorIndicator) ∧
    (∀ s : ListState, s.loading = true →
       renderList s = ListRender.loadingIndicator) ∧
    (∀ s : ListState, s.loading = false → s.error.isSome = true →
       renderList s = ListRender.errorIndicator) ∧
    (runDetail notFoundService
        [DetailEvent.changeId 7, DetailEvent.arrive 0, DetailEvent.changeId 8]
        initDetailWorld).state.loading = true ∧
    ((runDetail notFoundService
        [DetailEvent.changeId 7, DetailEvent.arrive 0, DetailEvent.changeId 8]
        initDetailWorld).state.error).isSome = true := by
  refine ⟨?_, renderDetail_of_error, ?_, renderList_of_error, rfl, rfl⟩
  · intro s h
    simp [renderDetail, h]
  · intro s h
    simp [renderList, h]

/-- Witness for the amended C7 at a loading state and at a settled error
state. -/
theorem independent_flags_with_render_precedence_witness :
    renderDetail { todo := none, loading := true, error := none } =
      DetailRender.loadingIndicator ∧
    renderDetail
        { todo := some (mkGoodTodo 1), loading := false, error := some "HTTP 404" } =
      DetailRender.errorIndicator :=
  ⟨independent_flags_with_render_precedence.1
      { todo := none, loading := true, error := none } rfl,
   independent_flags_with_render_precedence.2.1
      { todo := some (mkGoodTodo 1), loading := false, error := some "HTTP 404" }
      rfl rfl⟩

/-- C8 counterexample: a network failure and a non-success HTTP status
produce the same rendered message in the detail view (and likewise in the
list view), although their stored error strings differ, so the three error
categories do not map to three pairwise distinct rendered messages. -/
theorem network_and_http_error_render_same_message :
    detailRenderText (renderDetail (fetchTodoSettle initDetailState
        (FetchOutcome.networkError "Failed to fetch"))) =
      detailRenderText (renderDetail (fetchTodoSettle initDetailState
        (FetchOutcome.response { ok := false, status := 404, json := Except.ok none }))) ∧
    listRenderText (renderList (fetchTodos initListState
        (FetchOutcome.networkError "Failed to fetch"))) =
      listRenderText (renderList (fetchTodos initListState
        (FetchOutcome.response
          { ok := false, status := 500, json := Except.error "Unexpected token" }))) ∧
    (fetchTodoSettle initDetailState (FetchOutcome.networkError "Failed to fetch")).error ≠
      (fetchTodoSettle initDetailState
        (FetchOutcome.response
          { ok := false, status := 404, json := Except.ok none })).error :=
  ⟨rfl, rfl, by decide⟩

/-- C8 amended: each error category is handled locally by the fetching view
and produces a rendered indicator; the not-found message is distinct from
the error message, but network failure and non-success status share one
rendered message (only their stored error strings differ). -/
theorem error_categories_handled_locally :
    (∀ (s : DetailState) (msg : String),
       renderDetail (fetchTodoSettle s (FetchOutcome.networkError msg)) =
         DetailRender.errorIndicator) ∧
    (∀ (s : DetailState) (r : HttpResponse (Option Todo)), r.ok = false →
       renderDetail (fetchTodoSettle s (FetchOutcome.response r)) =
         DetailRender.errorIndicator) ∧
    (∀ (s : DetailState) (r : HttpResponse (Option Todo)), r.ok = true →
       r.json = Except.ok none → s.error = none →
       renderDetail (fetchTodoSettle s (FetchOutcome.response r)) =
         DetailRender.notFound) ∧
    detailRenderText DetailRender.notFound ≠
      detailRenderText DetailRender.errorIndicator ∧
    detailRenderText (renderDetail (fetchTodoSettle initDetailState
        (FetchOutcome.networkError "Failed to fetch"))) =
      detailRenderText (renderDetail (fetchTodoSettle initDetailState
        (FetchOutcome.response
          { ok := false, status := 503, json := Except.ok none }))) := by
  refine ⟨?_, ?_, ?_, by decide, rfl⟩
  · intro s msg
    exact renderDetail_of_error _ rfl rfl
  · intro s r hok
    exact renderDetail_of_error _ (fetchTodoSettle_loading s (FetchOutcome.response r))
      (fetchTodoSettle_error_isSome_of_notOk s r hok)
  · intro s r hok hjson herr
    simp [fetchTodoSettle, renderDetail, hok, hjson, herr]

/-- Witness for the amended C8 at a concrete rejected parse and at a
concrete null body. -/
theorem error_categories_handled_locally_witness :
    renderDetail (fetchTodoSettle initDetailState
        (FetchOutcome.response
          { ok := false, status := 500, json := Except.error "bad json" })) =
      DetailRender.errorIndicator ∧
    renderDetail (fetchTodoSettle
        { todo := some (mkGoodTodo 2), loading := false, error := none }
        (FetchOutcome.response { ok := true, status := 200, json := Except.ok none })) =
      DetailRender.notFound :=
  ⟨error_categories_handled_locally.2.1 initDetailState
      { ok := false, status := 500, json := Except.error "bad json" } rfl,
   error_categories_handled_locally.2.2.1
      { todo := some (mkGoodTodo 2), loading := false, error := none }
      { ok := true, status := 200, json := Except.ok none } rfl rfl rfl⟩

/-- C10: the detail view never sets error back to null: an error set once
survives every later event, and whenever the view is settled afterwards it
renders the error indicator, even if a later request succeeded and stored
a record. -/
theorem detail_error_never_reset (sv : Nat → FetchOutcome (Option Todo))
    (events : List DetailEvent) (w : DetailWorld)
    (h : w.state.error.isSome = true) :
    ((runDetail sv events w).state.error).isSome = true ∧
    ((runDetail sv events w).state.loading = false →
      renderDetail (runDetail sv events w).state = DetailRender.errorIndicator) := by
  have hmono : ∀ (evs : List DetailEvent) (w0 : DetailWorld),
      w0.state.error.isSome = true →
      ((runDetail sv evs w0).state.error).isSome = true := by
    intro evs
    induction evs with
    | nil => intro w0 h0; simpa [runDetail] using h0
    | cons e rest ih =>
      intro w0 h0
      simpa [runDetail, List.foldl_cons] using
        ih (detailStep sv w0 e) (detailStep_error_mono sv w0 e h0)
  exact ⟨hmono events w h,
    fun hl => renderDetail_of_error _ hl (hmono events w h)⟩

/-- Witness for C10: a view whose first fetch stored an error goes through
a successful fetch for id 9 that stores a record, yet still renders the
error indicator. -/
theorem detail_error_never_reset_witness :
    (({ state := { todo := none, loading := false, error := some "HTTP 404" },
        pending := [], history := [5] } : DetailWorld).state.error).isSome = true ∧
    renderDetail (runDetail (goodService mkGoodTodo)
        [DetailEvent.changeId 9, DetailEvent.arrive 0]
        { state := { todo := none, loading := false, error := some "HTTP 404" },
          pending := [], history := [5] }).state = DetailRender.errorIndicator := by
  refine ⟨rfl, ?_⟩
  have h := detail_error_never_reset (goodService mkGoodTodo)
      [DetailEvent.changeId 9, DetailEvent.arrive 0]
      { state := { todo := none, loading := false, error := some "HTTP 404" },
        pending := [], history := [5] } rfl
  exact h.2 rfl
